import Mathlib

/-!
Verification of the deep-researcher pipeline
(`src/deep_researcher/src/{planner,task_splitter,coordinator}.py`).

The Python modules are shallowly embedded: environment lookups become
`Option String` arguments, the network round-trip becomes an explicit
response argument plus a `requests` counter recording how many completion
requests were issued, and Python exceptions become an explicit error type.
-/

/-- Python exceptions that the embedded code can raise.
`valueError` is the explicitly raised, classified
`ValueError("Failed to parse subtasks from response: ...")` of
`task_splitter.py`; `validationError` is pydantic's `ValidationError`
raised by `Subtask(**task)` (a distinct, unclassified failure);
`keyError` covers both `os.environ[...]` misses and the explicit
`raise KeyError(...)` calls; `typeError` covers Python `TypeError`. -/
inductive PyErr
  | keyError (msg : String)
  | valueError (msg : String)
  | validationError
  | typeError (msg : String)
  deriving DecidableEq

/-- A decoded JSON value, the result of `json.loads` on the model response
body. JSON objects are kept as key/value lists in document order. -/
inductive Json
  | null
  | bool (b : Bool)
  | num (n : Int)
  | str (s : String)
  | arr (elems : List Json)
  | obj (fields : List (String × Json))

/-- Dictionary lookup on a decoded JSON object (`value["key"]`). -/
def jsonLookup : List (String × Json) → String → Option Json
  | [], _ => none
  | (k, v) :: rest, key => if k = key then some v else jsonLookup rest key

/-- The `Subtask` pydantic model of `task_splitter.py`: three required
string fields `id`, `title`, `description`. -/
structure Subtask where
  id : String
  title : String
  description : String
  deriving DecidableEq

/-- Construction `Subtask(**task)` from one decoded JSON array element.
Pydantic accepts the record iff the argument is a mapping carrying all
three required fields with string values (empty strings included: the
fields are plain `str`, with no non-empty constraint); a missing field or
a non-string value raises `ValidationError`; a non-mapping argument
raises `TypeError` (`argument after ** must be a mapping`). -/
def subtaskOfJson : Json → Except PyErr Subtask
  | .obj fields =>
    match jsonLookup fields "id", jsonLookup fields "title",
        jsonLookup fields "description" with
    | some (.str i), some (.str t), some (.str d) => .ok ⟨i, t, d⟩
    | _, _, _ => .error .validationError
  | _ => .error (.typeError "argument after ** must be a mapping")

/-- The list comprehension `[Subtask(**task) for task in subtasks_data]`
over a decoded JSON array: builds records left to right and propagates
the first exception. This runs OUTSIDE the `try` block of
`split_into_subtasks`, so its failures stay unclassified. -/
def buildRecords : List Json → Except PyErr (List Subtask)
  | [] => .ok []
  | j :: rest =>
    match subtaskOfJson j with
    | .error e => .error e
    | .ok t =>
      match buildRecords rest with
      | .error e => .error e
      | .ok ts => .ok (t :: ts)

/-- Iterating `subtasks_data` when it is not a JSON array: an empty
string or empty object iterates zero times and yields `[]`; a non-empty
string or object iterates over characters/keys and `Subtask(**task)`
raises `TypeError`; null, booleans and numbers are not iterable at all
(`TypeError`). -/
def buildSubtasks : Json → Except PyErr (List Subtask)
  | .arr elems => buildRecords elems
  | .str s =>
    if s = "" then .ok []
    else .error (.typeError "argument after ** must be a mapping")
  | .obj [] => .ok []
  | .obj (_ :: _) => .error (.typeError "argument after ** must be a mapping")
  | _ => .error (.typeError "object is not iterable")

/-- The guarded body of the `try` block:
`json.loads(message.content)["subtasks"]`. The input is the outcome of
`json.loads` (a malformed body is `.error` carrying the decoder message);
a decoded non-object body makes the string subscript raise `TypeError`,
and an object without the `"subtasks"` key raises `KeyError`. The error
string is the cause interpolated into the classified message. -/
def subtasksValue : Except String Json → Except String Json
  | .error e => .error e
  | .ok (.obj fields) =>
    match jsonLookup fields "subtasks" with
    | some v => .ok v
    | none => .error "\x27subtasks\x27"
  | .ok _ => .error "value is not subscriptable by str"

/-- Equality of embedded call results (raised exception or returned
value) is decidable, so concrete runs can be checked by evaluation. -/
instance {ε α : Type} [DecidableEq ε] [DecidableEq α] :
    DecidableEq (Except ε α) := fun x y =>
  match x, y with
  | .error a, .error b =>
    if h : a = b then isTrue (by rw [h])
    else isFalse (by intro hc; cases hc; exact h rfl)
  | .ok a, .ok b =>
    if h : a = b then isTrue (by rw [h])
    else isFalse (by intro hc; cases hc; exact h rfl)
  | .error _, .ok _ => isFalse (by intro hc; cases hc)
  | .ok _, .error _ => isFalse (by intro hc; cases hc)

/-- Outcome of one `split_into_subtasks` call: how many completion
requests were issued, and the returned list or the raised exception. -/
structure SplitOutcome where
  requests : Nat
  result : Except PyErr (List Subtask)
  deriving DecidableEq

/-- Embedding of `split_into_subtasks` (`task_splitter.py`).
`hfToken` is `os.environ.get("HF_TOKEN")`; the falsy check
`if not hf_token` rejects both an absent and an empty-string token with
`KeyError` before any request. Otherwise one completion request is
issued and `decoded` stands for `json.loads` applied to the response
message content. Only `JSONDecodeError`, `KeyError` and `TypeError`
from the subscript step are caught and re-raised as the classified
`ValueError`; record construction happens after the `try` block. -/
def split_into_subtasks (hfToken : Option String)
    (decoded : Except String Json) : SplitOutcome :=
  match hfToken with
  | none => ⟨0, .error (.keyError "HF_TOKEN environment variable is not set")⟩
  | some t =>
    if t = "" then
      ⟨0, .error (.keyError "HF_TOKEN environment variable is not set")⟩
    else
      ⟨1, match subtasksValue decoded with
          | .error cause =>
            .error (.valueError ("Failed to parse subtasks from response: " ++ cause))
          | .ok v => buildSubtasks v⟩

/-- A streaming delta object. The outer `Option` is `hasattr(delta,
"content")`; the inner `Option String` is the attribute value, which may
be Python `None`. -/
structure Delta where
  content : Option (Option String)

/-- A complete-response message object, same conventions as `Delta`. -/
structure Message where
  content : Option (Option String)

/-- One element of `response.choices`. The `Option`s are
`hasattr(choice, "delta")` / `hasattr(choice, "message")`. -/
structure Choice where
  delta : Option Delta
  message : Option Message

/-- A completion response unit (streaming chunk or complete response).
`choices = none` means the `choices` attribute is absent; `some []` is a
present but empty (falsy) list. -/
structure ResponseObj where
  choices : Option (List Choice)

/-- The message-field branch of `_extract_content`:
`if hasattr(choice, "message") and hasattr(choice.message, "content"):
return choice.message.content`. -/
def messageContent (choice : Choice) : Option String :=
  match choice.message with
  | some m =>
    match m.content with
    | some v => v
    | none => none
  | none => none

/-- Embedding of `_extract_content` (`planner.py`): take the first
choice if the `choices` attribute exists and is non-empty, prefer the
delta content attribute when present (returning its value even when that
value is `None`), else fall back to the message content attribute, else
`None`. -/
def _extract_content (response_obj : ResponseObj) : Option String :=
  match response_obj.choices with
  | some (choice :: _) =>
    match choice.delta with
    | some d =>
      match d.content with
      | some v => v
      | none => messageContent choice
    | none => messageContent choice
  | _ => none

/-- Python `"".join` over a list of fragments. -/
def strJoin : List String → String
  | [] => ""
  | s :: rest => s ++ strJoin rest

/-- The accumulation loop of `_process_streaming_response`: a fragment
is appended only when `if content:` holds, i.e. the extracted content is
a non-empty string (`None` and `""` are both skipped). -/
def collectChunks : List ResponseObj → List String
  | [] => []
  | chunk :: rest =>
    match _extract_content chunk with
    | some content =>
      if content = "" then collectChunks rest
      else content :: collectChunks rest
    | none => collectChunks rest

/-- Embedding of `_process_streaming_response` (`planner.py`). -/
def _process_streaming_response (completion : List ResponseObj) : String :=
  strJoin (collectChunks completion)

/-- Embedding of `_process_complete_response` (`planner.py`): return the
extracted content when truthy, else the empty string. -/
def _process_complete_response (completion : ResponseObj) : String :=
  match _extract_content completion with
  | some content => if content = "" then "" else content
  | none => ""

/-- The completion object returned by the inference client: either an
iterable stream of chunks, or a single complete-response object whose
iteration raises `TypeError`. -/
inductive Completion
  | stream (chunks : List ResponseObj)
  | nonStream (obj : ResponseObj)

/-- Outcome of one `generate_research_plan` call: how many completion
requests were issued, and the returned plan or raised exception. -/
structure PlannerOutcome where
  requests : Nat
  result : Except PyErr String
  deriving DecidableEq

/-- Embedding of `generate_research_plan` (`planner.py`).
`os.environ["HF_TOKEN"]` raises `KeyError` only when the variable is
absent (an empty string is a present value and is used as-is), after
which one completion request is issued. The `try/except TypeError`
around `_process_streaming_response` is the streaming/non-streaming
shape dispatch: a non-iterable completion raises `TypeError` at `for
chunk in completion`, which falls back to
`_process_complete_response`. -/
def generate_research_plan (hfToken : Option String)
    (completion : Completion) : PlannerOutcome :=
  match hfToken with
  | none => ⟨0, .error (.keyError "HF_TOKEN")⟩
  | some _ =>
    ⟨1, .ok (match completion with
        | .stream chunks => _process_streaming_response chunks
        | .nonStream obj => _process_complete_response obj)⟩

/-- The process environment as seen by `coordinator.py`: the two
credentials it reads. `none` is an absent variable. -/
structure Env where
  hfToken : Option String
  firecrawlKey : Option String

/-- Embedding of `_get_hf_token` (`coordinator.py`): `os.environ.get`
plus a falsy check, so both an absent and an empty-string token raise
`KeyError`. -/
def _get_hf_token (env : Env) : Except PyErr String :=
  match env.hfToken with
  | none => .error (.keyError "HF_TOKEN environment variable is not set")
  | some t =>
    if t = "" then .error (.keyError "HF_TOKEN environment variable is not set")
    else .ok t

/-- Embedding of `_get_mcp_url` (`coordinator.py`). -/
def _get_mcp_url (env : Env) : Except PyErr String :=
  match env.firecrawlKey with
  | none => .error (.keyError "FIRECRAWL_API_KEY environment variable is not set")
  | some k =>
    if k = "" then .error (.keyError "FIRECRAWL_API_KEY environment variable is not set")
    else .ok ("https://mcp.firecrawl.dev/" ++ k ++ "/v2/mcp")

/-- A model handle as built by `_create_model`. -/
structure ModelSpec where
  modelId : String
  apiKey : String
  deriving DecidableEq

/-- Embedding of `_create_model` (`coordinator.py`). -/
def _create_model (model_id api_key : String) : ModelSpec :=
  ⟨model_id, api_key⟩

def COORDINATOR_MODEL_ID : String := "MiniMaxAI/MiniMax-M1-80k"

def SUBAGENT_MODEL_ID : String := "MiniMaxAI/MiniMax-M1-80k"

/-- The declared interface of one tool handed to a `ToolCallingAgent`:
its name and the parameter names of its call signature (the `@tool`
decorator derives this schema from the decorated function's
signature). -/
structure ToolSpec where
  name : String
  params : List String
  deriving DecidableEq

/-- The `initialize_subagent` tool defined inside `run_deep_research`:
`def initialize_subagent(subtask_id: str, subtask_title: str,
subtask_description: str) -> str`. -/
def subagentToolSpec : ToolSpec :=
  ⟨"initialize_subagent", ["subtask_id", "subtask_title", "subtask_description"]⟩

/-- The construction arguments of a `ToolCallingAgent`. -/
structure AgentSpec where
  tools : List ToolSpec
  model : ModelSpec
  addBaseTools : Bool
  name : String
  deriving DecidableEq

/-- Hexadecimal digit used by the `\u00XX` escapes of `json.dumps`. -/
def hexDigitChar (n : Nat) : Char :=
  if n < 10 then Char.ofNat (48 + n) else Char.ofNat (87 + n)

/-- JSON string escaping as performed by `json.dumps(...,
ensure_ascii=False)`: double quote, backslash and the named control
characters get two-character escapes, the remaining control characters
get `\u00XX`, and every other character (non-ASCII included) is kept
as-is. -/
def pyJsonEscapeChar (c : Char) : String :=
  if c = '"' then "\\\""
  else if c = '\\' then "\\\\"
  else if c = '\n' then "\\n"
  else if c = '\t' then "\\t"
  else if c = '\r' then "\\r"
  else if c = '\x08' then "\\b"
  else if c = '\x0c' then "\\f"
  else if c.toNat < 32 then
    "\\u00" ++ String.singleton (hexDigitChar (c.toNat / 16)) ++
      String.singleton (hexDigitChar (c.toNat % 16))
  else String.singleton c

/-- JSON escaping of a whole string value. -/
def pyJsonEscape (s : String) : String :=
  strJoin (s.data.map pyJsonEscapeChar)

/-- Python `sep.join`-style interleaving used to model the item
separator of `json.dumps`. -/
def strIntercalate (sep : String) : List String → String
  | [] => ""
  | [s] => s
  | s :: rest => s ++ sep ++ strIntercalate sep rest

/-- One `task.model_dump()` dict rendered by `json.dumps(...,
indent=2, ensure_ascii=False)` as an element of the subtask array:
fields in declaration order `id`, `title`, `description`. -/
def dumpSubtask (t : Subtask) : String :=
  "  \x7b\n    \"id\": \"" ++ pyJsonEscape t.id ++
    "\",\n    \"title\": \"" ++ pyJsonEscape t.title ++
    "\",\n    \"description\": \"" ++ pyJsonEscape t.description ++
    "\"\n  \x7d"

/-- `json.dumps([task.model_dump() for task in subtasks], indent=2,
ensure_ascii=False)`: an empty list prints as `[]`, otherwise one
indented element per line separated by commas. -/
def subtasksJson : List Subtask → String
  | [] => "[]"
  | t :: ts => "[\n" ++ strIntercalate ",\n" ((t :: ts).map dumpSubtask) ++ "\n]"

def coordinatorTplA : String :=
  "\nYou are the LEAD RESEARCH COORDINATOR AGENT.\n\nThe user has asked:\n\"\"\""

def coordinatorTplB : String :=
  "\"\"\"\n\nA detailed research plan has already been created:\n\n\"\"\""

def coordinatorTplC : String :=
  "\"\"\"\n\nThis plan has been split into the following subtasks (JSON):\n\n```json\n"

def coordinatorTplD : String :=
  "\n```\nEach element has the shape:\n\x7b\n“id”: “timeframe_confirmation”,\n“title”: “Confirm Research Scope Parameters”,\n“description”: “Analyze the scope parameters…”\n\x7d\n\nYou have access to a tool called:\n• initialize_subagent(subtask_id: str, subtask_title: str, subtask_description: str)\n\nYour job:\n1. For EACH subtask in the JSON array, call initialize_subagent exactly once\nwith:\n• subtask_id       = subtask[“id”]\n• subtask_title    = subtask[“title”]\n• subtask_description = subtask[“description”]\n2. Wait for all sub-agent reports to come back. Each tool call returns a\nmarkdown report for that subtask.\n3. After you have results for ALL subtasks, synthesize them into a SINGLE,\ncoherent, deeply researched report addressing the original user query\n(\""

def coordinatorTplE : String :=
  "\").\n\nFinal report requirements:\n• Integrate all sub-agent findings; avoid redundancy.\n• Make the structure clear with headings and subheadings.\n• Highlight:\n• key drivers and mechanisms of insecurity,\n• historical and temporal evolution,\n• geographic and thematic patterns,\n• state capacity, public perception, and socioeconomic correlates,\n• open questions and uncertainties.\n• Include final sections:\n• Open Questions and Further Research\n• Bibliography / Sources: merge and deduplicate the key sources from all sub-agents.\n\nImportant:\n• DO NOT expose internal tool-call mechanics to the user.\n• Your final answer to the user should be a polished markdown report.\n"

/-- Embedding of `COORDINATOR_PROMPT_TEMPLATE.format(user_query=...,
research_plan=..., subtasks_json=...)` (`prompt.py`): the template's
literal text with the three values spliced in (`user_query` appears
twice, and the template's `\x7b\x7b`/`\x7d\x7d` render as literal
braces). -/
def coordinatorPrompt (user_query research_plan subtasks_json : String) : String :=
  coordinatorTplA ++ user_query ++ coordinatorTplB ++ research_plan ++
    coordinatorTplC ++ subtasks_json ++ coordinatorTplD ++ user_query ++
    coordinatorTplE

/-- What one `run_deep_research` call produced: the lead
(`coordinator_agent`) construction arguments, the prompt passed to its
`run`, and the returned final report. -/
structure CoordinatorRun where
  leadAgent : AgentSpec
  prompt : String
  finalReport : String
  deriving DecidableEq

/-- Embedding of `run_deep_research` (`coordinator.py`). The plan
generator, the task splitter and the lead worker's `run` are parameters
(matching how the module-level functions and `ToolCallingAgent` are
replaced by stubs in the spec's coordination scenario): the function
obtains the plan, splits it, resolves the two credentials, builds the
two model handles and the MCP url, constructs the lead worker with the
single `initialize_subagent` tool, serializes the subtasks, formats the
coordinator prompt and returns the lead worker's output. -/
def run_deep_research (env : Env) (planOf : String → String)
    (splitOf : String → List Subtask)
    (agentRun : AgentSpec → String → String)
    (query : String) : Except PyErr CoordinatorRun :=
  let research_plan := planOf query
  let subtasks := splitOf research_plan
  match _get_hf_token env with
  | .error e => .error e
  | .ok hf_token =>
    let coordinator_model := _create_model COORDINATOR_MODEL_ID hf_token
    let _subagent_model := _create_model SUBAGENT_MODEL_ID hf_token
    match _get_mcp_url env with
    | .error e => .error e
    | .ok _mcp_url =>
      let coordinator : AgentSpec :=
        ⟨[subagentToolSpec], coordinator_model, false, "coordinator_agent"⟩
      let subtasks_json := subtasksJson subtasks
      let coordinator_prompt := coordinatorPrompt query research_plan subtasks_json
      let final_report := agentRun coordinator coordinator_prompt
      .ok ⟨coordinator, coordinator_prompt, final_report⟩

/-- Python attribute assignment `t.id = v` on a `Subtask` instance. The
class declares no `model_config`, so pydantic's default applies: the
model is not frozen, assignment is accepted and replaces the field
value (a frozen model would raise instead). -/
def Subtask.assign_id (t : Subtask) (v : String) : Except PyErr Subtask :=
  .ok { t with id := v }

/-- Python attribute assignment `t.title = v` on a `Subtask` instance
(same pydantic default-mutability semantics as `Subtask.assign_id`). -/
def Subtask.assign_title (t : Subtask) (v : String) : Except PyErr Subtask :=
  .ok { t with title := v }

/-- Python attribute assignment `t.description = v` on a `Subtask`
instance (same semantics as `Subtask.assign_id`). -/
def Subtask.assign_description (t : Subtask) (v : String) : Except PyErr Subtask :=
  .ok { t with description := v }

/-- Boolean test that `pat` is a leading segment of `s` (character
lists). -/
def leadsChars : List Char → List Char → Bool
  | [], _ => true
  | _ :: _, [] => false
  | a :: as, b :: bs => a == b && leadsChars as bs

/-- Boolean test that `pat` occurs contiguously somewhere inside `s`
(character lists); used to state Python's `pat in s`. -/
def occursChars (pat : List Char) : List Char → Bool
  | [] => leadsChars pat []
  | l@(_ :: rest) => leadsChars pat l || occursChars pat rest

/-- Python's substring test `pat in s`. -/
def strContains (s pat : String) : Bool :=
  occursChars pat.data s.data

/-- A character that `json.dumps(..., ensure_ascii=False)` copies
verbatim: not a double quote, not a backslash, not a control
character. -/
def jsonPlainChar (c : Char) : Bool :=
  !(c == '"') && !(c == '\\') && !(c.toNat < 32)

/-- A string that JSON escaping leaves unchanged. -/
def jsonPlain (s : String) : Bool :=
  s.data.all jsonPlainChar

/-- Appending to a string concatenates the character data. -/
theorem strData_append (a b : String) : (a ++ b).data = a.data ++ b.data := by
  cases a
  cases b
  rfl

/-- The empty string is a left identity for append. -/
theorem strEmpty_append (s : String) : "" ++ s = s := by
  cases s
  rfl

/-- A leading segment of `s` is a leading segment of `s ++ u`. -/
theorem leadsChars_append (p : List Char) :
    ∀ s u : List Char, leadsChars p s = true → leadsChars p (s ++ u) = true := by
  induction p with
  | nil => intro s u _; rfl
  | cons a as ih =>
    intro s u h
    cases s with
    | nil => simp [leadsChars] at h
    | cons b bs =>
      simp [leadsChars] at h ⊢
      exact ⟨h.1, ih bs u h.2⟩

/-- Every list leads any of its extensions. -/
theorem leadsChars_self (p : List Char) : ∀ u, leadsChars p (p ++ u) = true := by
  induction p with
  | nil => intro u; rfl
  | cons a as ih => intro u; simp [leadsChars, ih u]

/-- A leading segment occurs. -/
theorem occursChars_of_leads (p s : List Char) (h : leadsChars p s = true) :
    occursChars p s = true := by
  cases s with
  | nil => exact h
  | cons b bs => simp [occursChars, h]

/-- Occurrence is preserved by prepending. -/
theorem occursChars_appendR (p : List Char) :
    ∀ s t : List Char, occursChars p t = true → occursChars p (s ++ t) = true := by
  intro s
  induction s with
  | nil => intro t h; simpa using h
  | cons c cs ih =>
    intro t h
    show occursChars p (c :: (cs ++ t)) = true
    simp [occursChars, ih t h]

/-- Occurrence is preserved by appending. -/
theorem occursChars_appendL (p : List Char) :
    ∀ s t : List Char, occursChars p s = true → occursChars p (s ++ t) = true := by
  intro s
  induction s with
  | nil =>
    intro t h
    cases p with
    | nil =>
      cases t with
      | nil => rfl
      | cons c cs => simp [occursChars, leadsChars]
    | cons a as => simp [occursChars, leadsChars] at h
  | cons c cs ih =>
    intro t h
    show occursChars p (c :: (cs ++ t)) = true
    simp [occursChars] at h ⊢
    cases h with
    | inl hl => exact Or.inl (leadsChars_append p (c :: cs) t hl)
    | inr hr => exact Or.inr (ih t hr)

/-- Containment in the left part of an append. -/
theorem strContains_left (a b pat : String) (h : strContains a pat = true) :
    strContains (a ++ b) pat = true := by
  unfold strContains at h ⊢
  rw [strData_append]
  exact occursChars_appendL _ _ _ h

/-- Containment in the right part of an append. -/
theorem strContains_right (a b pat : String) (h : strContains b pat = true) :
    strContains (a ++ b) pat = true := by
  unfold strContains at h ⊢
  rw [strData_append]
  exact occursChars_appendR _ _ _ h

/-- Every string contains itself. -/
theorem strContains_self (s : String) : strContains s s = true := by
  unfold strContains
  have h := leadsChars_self s.data []
  rw [List.append_nil] at h
  exact occursChars_of_leads _ _ h

/-- A plain character is copied verbatim by the JSON escaper. -/
theorem pyJsonEscapeChar_plain (c : Char) (h : jsonPlainChar c = true) :
    pyJsonEscapeChar c = String.singleton c := by
  unfold jsonPlainChar at h
  rw [Bool.and_eq_true, Bool.and_eq_true, Bool.not_eq_true',
    Bool.not_eq_true', Bool.not_eq_true'] at h
  obtain ⟨⟨hq, hbs⟩, hlt⟩ := h
  have h1 : c ≠ '"' := by
    intro hc
    rw [hc] at hq
    simp at hq
  have h2 : c ≠ '\\' := by
    intro hc
    rw [hc] at hbs
    simp at hbs
  have h3 : ¬ c.toNat < 32 := of_decide_eq_false hlt
  have hn : c ≠ '\n' := by
    intro hc
    rw [hc] at h3
    exact h3 (by decide)
  have ht : c ≠ '\t' := by
    intro hc
    rw [hc] at h3
    exact h3 (by decide)
  have hr : c ≠ '\r' := by
    intro hc
    rw [hc] at h3
    exact h3 (by decide)
  have hb : c ≠ '\x08' := by
    intro hc
    rw [hc] at h3
    exact h3 (by decide)
  have hf : c ≠ '\x0c' := by
    intro hc
    rw [hc] at h3
    exact h3 (by decide)
  unfold pyJsonEscapeChar
  rw [if_neg h1, if_neg h2, if_neg hn, if_neg ht, if_neg hr, if_neg hb,
    if_neg hf, if_neg h3]

/-- Joining the escapes of plain characters rebuilds the original
character list. -/
theorem strJoin_escape_plain (l : List Char) (h : l.all jsonPlainChar = true) :
    strJoin (l.map pyJsonEscapeChar) = ⟨l⟩ := by
  induction l with
  | nil => rfl
  | cons c cs ih =>
    simp only [List.all_cons, Bool.and_eq_true] at h
    rw [List.map_cons]
    show pyJsonEscapeChar c ++ strJoin (cs.map pyJsonEscapeChar) = ⟨c :: cs⟩
    rw [pyJsonEscapeChar_plain c h.1, ih h.2]
    rfl

/-- JSON escaping is the identity on plain strings. -/
theorem pyJsonEscape_plain (s : String) (h : jsonPlain s = true) :
    pyJsonEscape s = s := by
  cases s with
  | mk data => exact strJoin_escape_plain data h

/-- A failure of `Subtask(**task)` is pydantic's `ValidationError` or a
`TypeError`, never the classified parse `ValueError`. -/
theorem subtaskOfJson_error_unclassified (j : Json) (e : PyErr)
    (h : subtaskOfJson j = .error e) :
    e = .validationError ∨ ∃ m, e = .typeError m := by
  cases j with
  | obj fields =>
    rw [show subtaskOfJson (.obj fields)
        = (match jsonLookup fields "id", jsonLookup fields "title",
            jsonLookup fields "description" with
          | some (.str i), some (.str t), some (.str d) => Except.ok ⟨i, t, d⟩
          | _, _, _ => Except.error PyErr.validationError) from rfl] at h
    split at h
    · exact Except.noConfusion h
    · injection h with h2
      exact Or.inl h2.symm
  | null => injection h with h2; exact Or.inr ⟨_, h2.symm⟩
  | bool b => injection h with h2; exact Or.inr ⟨_, h2.symm⟩
  | num n => injection h with h2; exact Or.inr ⟨_, h2.symm⟩
  | str s => injection h with h2; exact Or.inr ⟨_, h2.symm⟩
  | arr elems => injection h with h2; exact Or.inr ⟨_, h2.symm⟩

/-- If any array element fails record validation, the whole
comprehension raises one unclassified error and builds no list. -/
theorem buildRecords_error_of_mem (elems : List Json)
    (hbad : ∃ j ∈ elems, ∃ e, subtaskOfJson j = .error e) :
    ∃ e, buildRecords elems = .error e ∧
      (e = .validationError ∨ ∃ m, e = .typeError m) := by
  induction elems with
  | nil =>
    obtain ⟨j, hj, _⟩ := hbad
    exact absurd hj (List.not_mem_nil j)
  | cons a rest ih =>
    obtain ⟨j, hj, e0, he0⟩ := hbad
    cases hsa : subtaskOfJson a with
    | error ea =>
      refine ⟨ea, ?_, subtaskOfJson_error_unclassified a ea hsa⟩
      unfold buildRecords
      rw [hsa]
    | ok t =>
      have hrest : ∃ j ∈ rest, ∃ e, subtaskOfJson j = .error e := by
        rcases List.mem_cons.mp hj with hja | hmem
        · rw [hja, hsa] at he0
          exact absurd he0 (by simp)
        · exact ⟨j, hmem, e0, he0⟩
      obtain ⟨e1, hb, hcls⟩ := ih hrest
      refine ⟨e1, ?_, hcls⟩
      unfold buildRecords
      rw [hsa, hb]

/-- The serialized form of one subtask contains its (escape-free) id. -/
theorem dumpSubtask_contains_id (t : Subtask) (h : jsonPlain t.id = true) :
    strContains (dumpSubtask t) t.id = true := by
  unfold dumpSubtask
  rw [pyJsonEscape_plain t.id h]
  apply strContains_left
  apply strContains_left
  apply strContains_left
  apply strContains_left
  apply strContains_left
  apply strContains_right
  exact strContains_self t.id

/-- The serialized form of one subtask contains its (escape-free)
title. -/
theorem dumpSubtask_contains_title (t : Subtask) (h : jsonPlain t.title = true) :
    strContains (dumpSubtask t) t.title = true := by
  unfold dumpSubtask
  rw [pyJsonEscape_plain t.title h]
  apply strContains_left
  apply strContains_left
  apply strContains_left
  apply strContains_right
  exact strContains_self t.title

/-- The two-subtask JSON array contains whatever either serialized
element contains. -/
theorem subtasksJson_pair_contains (s1 s2 : Subtask) (pat : String)
    (h : strContains (dumpSubtask s1) pat = true ∨
      strContains (dumpSubtask s2) pat = true) :
    strContains (subtasksJson [s1, s2]) pat = true := by
  show strContains
    (("[\n" ++ ((dumpSubtask s1 ++ ",\n") ++ dumpSubtask s2)) ++ "\n]") pat = true
  apply strContains_left
  apply strContains_right
  rcases h with h | h
  · exact strContains_left _ _ _ (strContains_left _ _ _ h)
  · exact strContains_right _ _ _ h

/-- The coordinator prompt contains whatever the serialized subtask
array contains. -/
theorem coordinatorPrompt_contains_sj (q p sj pat : String)
    (h : strContains sj pat = true) :
    strContains (coordinatorPrompt q p sj) pat = true := by
  unfold coordinatorPrompt
  apply strContains_left
  apply strContains_left
  apply strContains_left
  apply strContains_right
  exact h

/-- The coordinator prompt contains the user query verbatim. -/
theorem coordinatorPrompt_contains_query (q p sj : String) :
    strContains (coordinatorPrompt q p sj) q = true := by
  unfold coordinatorPrompt
  apply strContains_left
  apply strContains_right
  exact strContains_self q

/-- The coordinator prompt contains the research plan verbatim. -/
theorem coordinatorPrompt_contains_plan (q p sj : String) :
    strContains (coordinatorPrompt q p sj) p = true := by
  unfold coordinatorPrompt
  apply strContains_left
  apply strContains_left
  apply strContains_left
  apply strContains_left
  apply strContains_left
  apply strContains_right
  exact strContains_self p

/-- C1 counterexample: a response body whose single subtask element has
an empty title is a per-record schema violation by the claim, yet
`split_into_subtasks` returns a one-element list instead of raising:
pydantic's plain `str` fields accept the empty string. -/
theorem splitAdmitsEmptyTitle :
    (split_into_subtasks (some "hf-token")
        (.ok (.obj [("subtasks",
          .arr [.obj [("id", .str "A"), ("title", .str ""),
            ("description", .str "D")]])]))).result
      = .ok [⟨"A", "", "D"⟩] := rfl

/-- C1 (amended): a subtask element missing a required field (or
otherwise rejected by record validation) makes `split_into_subtasks`
raise before any list is returned — but the raised error is pydantic's
`ValidationError` (or a `TypeError`), never the single classified
parse `ValueError`; and elements with an empty title (or description)
pass validation and are returned as ordinary records. -/
theorem splitSchemaViolationUnclassified (tok : String) (htok : tok ≠ "")
    (elems : List Json)
    (hbad : ∃ j ∈ elems, ∃ e, subtaskOfJson j = .error e) :
    (∃ e, (split_into_subtasks (some tok)
        (.ok (.obj [("subtasks", .arr elems)]))).result = .error e
      ∧ ∀ msg, e ≠ .valueError msg)
    ∧ ∀ i d, subtaskOfJson (.obj [("id", .str i), ("title", .str ""),
        ("description", .str d)]) = .ok ⟨i, "", d⟩ := by
  constructor
  · obtain ⟨e, hb, hcls⟩ := buildRecords_error_of_mem elems hbad
    refine ⟨e, ?_, ?_⟩
    · have hred : (split_into_subtasks (some tok)
          (.ok (.obj [("subtasks", .arr elems)]))).result
          = buildRecords elems := by
        rw [show split_into_subtasks (some tok) (.ok (.obj [("subtasks", .arr elems)]))
            = (if tok = "" then
                ⟨0, .error (.keyError "HF_TOKEN environment variable is not set")⟩
              else ⟨1, buildRecords elems⟩ : SplitOutcome) from rfl]
        rw [if_neg htok]
      rw [hred]
      exact hb
    · intro msg hmsg
      rcases hcls with hv | ⟨m, hm⟩
      · rw [hv] at hmsg
        cases hmsg
      · rw [hm] at hmsg
        cases hmsg
  · intro i d
    rfl

/-- C1 witness: a concrete element missing `title` and `description`
raises an unclassified error, and empty-title elements are admitted. -/
theorem splitSchemaViolationUnclassified_witness :
    (∃ e, (split_into_subtasks (some "hf-token")
        (.ok (.obj [("subtasks", .arr [.obj [("id", .str "A")]])]))).result = .error e
      ∧ ∀ msg, e ≠ .valueError msg)
    ∧ ∀ i d, subtaskOfJson (.obj [("id", .str i), ("title", .str ""),
        ("description", .str d)]) = .ok ⟨i, "", d⟩ :=
  splitSchemaViolationUnclassified "hf-token" (by decide)
    [.obj [("id", .str "A")]]
    ⟨.obj [("id", .str "A")], by simp, .validationError, rfl⟩

/-- C2: for every finite chunk sequence, the streamed plan equals the
ordered concatenation of each chunk's extracted content (absent content
contributing nothing), and in particular the two-chunk example
"Step 1: " / "Research. " yields "Step 1: Research. ". -/
theorem planStreamingConcatenation :
    (∀ chunks : List ResponseObj,
      _process_streaming_response chunks
        = strJoin (chunks.filterMap _extract_content))
    ∧ _process_streaming_response
        [⟨some [⟨some ⟨some (some "Step 1: ")⟩, none⟩]⟩,
         ⟨some [⟨some ⟨some (some "Research. ")⟩, none⟩]⟩]
      = "Step 1: Research. " := by
  constructor
  · intro chunks
    induction chunks with
    | nil => rfl
    | cons c rest ih =>
      unfold _process_streaming_response at ih ⊢
      rw [List.filterMap_cons]
      cases h : _extract_content c with
      | none =>
        simp only [collectChunks, h]
        exact ih
      | some s =>
        by_cases hs : s = ""
        · subst hs
          simp only [collectChunks, h, if_pos rfl]
          rw [strJoin, strEmpty_append]
          exact ih
        · simp only [collectChunks, h, if_neg hs]
          rw [strJoin, strJoin, ih]
  · rfl

/-- C3: when the completion object is not iterable as a stream, the
plan generator does not fail: it extracts the single complete
response's content and returns it unchanged. -/
theorem planFallbackComplete (tok : String) (obj : ResponseObj) (s : String)
    (h : _extract_content obj = some s) :
    generate_research_plan (some tok) (.nonStream obj) = ⟨1, .ok s⟩ := by
  show (⟨1, .ok (_process_complete_response obj)⟩ : PlannerOutcome) = ⟨1, .ok s⟩
  unfold _process_complete_response
  rw [h]
  show (⟨1, Except.ok (if s = "" then "" else s)⟩ : PlannerOutcome) = ⟨1, .ok s⟩
  by_cases hs : s = ""
  · subst hs
    rfl
  · rw [if_neg hs]

/-- C3 witness: a concrete non-streaming completion carrying one
message. -/
theorem planFallbackComplete_witness :
    generate_research_plan (some "hf-token")
      (.nonStream ⟨some [⟨none,
        some ⟨some (some "Complete research plan here.")⟩⟩]⟩)
      = ⟨1, .ok "Complete research plan here."⟩ :=
  planFallbackComplete "hf-token" _ _ rfl

/-- C4: the splitter contract on the four canonical bodies: one
well-formed subtask is parsed into exactly one record; a wrong top key
and malformed JSON raise the classified `ValueError` carrying the
underlying cause; an empty subtask array returns the empty list without
error. -/
theorem splitterContractExamples :
    split_into_subtasks (some "hf-token")
        (.ok (.obj [("subtasks", .arr [.obj [("id", .str "A"),
          ("title", .str "T"), ("description", .str "D")]])]))
      = ⟨1, .ok [⟨"A", "T", "D"⟩]⟩
    ∧ split_into_subtasks (some "hf-token") (.ok (.obj [("wrong_key", .arr [])]))
      = ⟨1, .error (.valueError
          "Failed to parse subtasks from response: \x27subtasks\x27")⟩
    ∧ split_into_subtasks (some "hf-token")
        (.error "Expecting value: line 1 column 1 (char 0)")
      = ⟨1, .error (.valueError
          "Failed to parse subtasks from response: Expecting value: line 1 column 1 (char 0)")⟩
    ∧ split_into_subtasks (some "hf-token") (.ok (.obj [("subtasks", .arr [])]))
      = ⟨1, .ok []⟩ :=
  ⟨rfl, rfl, rfl, rfl⟩

/-- C6: with the inference credential absent from the environment, both
the plan generator and the task splitter raise `KeyError` with zero
completion requests issued, whatever response would have come back. -/
theorem missingCredentialNoRequest (completion : Completion)
    (decoded : Except String Json) :
    generate_research_plan none completion = ⟨0, .error (.keyError "HF_TOKEN")⟩
    ∧ split_into_subtasks none decoded
      = ⟨0, .error (.keyError "HF_TOKEN environment variable is not set")⟩ :=
  ⟨rfl, rfl⟩

/-- C7 counterexample: field assignment on a constructed `Subtask` is
not rejected — it succeeds and yields a record whose `id` differs from
the constructed one. -/
theorem subtaskAssignmentNotRejected :
    Subtask.assign_id ⟨"A", "T", "D"⟩ "X" = .ok ⟨"X", "T", "D"⟩
    ∧ (⟨"X", "T", "D"⟩ : Subtask) ≠ ⟨"A", "T", "D"⟩ :=
  ⟨rfl, by decide⟩

/-- C7 (amended): `Subtask` records are mutable pydantic models: an
attempted field assignment is accepted and updates exactly that field,
leaving the other two unchanged (nothing in the pipeline performs such
an assignment, so records keep their constructed values there). -/
theorem subtaskAssignmentUpdates (t : Subtask) (v : String) :
    Subtask.assign_id t v = .ok ⟨v, t.title, t.description⟩
    ∧ Subtask.assign_title t v = .ok ⟨t.id, v, t.description⟩
    ∧ Subtask.assign_description t v = .ok ⟨t.id, t.title, v⟩ :=
  ⟨rfl, rfl, rfl⟩

/-- C9: with `HF_TOKEN` present but empty, the splitter's falsy check
raises `KeyError` before any request, while the planner's plain
`os.environ` lookup treats the empty string as a present credential and
issues its completion request, succeeding. -/
theorem emptyTokenDisagreement (completion : Completion)
    (decoded : Except String Json) :
    split_into_subtasks (some "") decoded
      = ⟨0, .error (.keyError "HF_TOKEN environment variable is not set")⟩
    ∧ (generate_research_plan (some "") completion).requests = 1
    ∧ ∃ plan, (generate_research_plan (some "") completion).result = .ok plan :=
  ⟨rfl, rfl, ⟨_, rfl⟩⟩

/-- C10: a first choice carrying a delta with a content attribute makes
the parser return that delta content without consulting the message
field (the conclusion holds for every value of the message field), and
when that content is `None` or empty the chunk contributes nothing to
the streamed plan. -/
theorem deltaContentShadowsMessage (d : Delta) (v : Option String)
    (hd : d.content = some v) (m : Option Message) (cs : List Choice) :
    _extract_content ⟨some (⟨some d, m⟩ :: cs)⟩ = v
    ∧ ((v = none ∨ v = some "") → ∀ rest : List ResponseObj,
        _process_streaming_response (⟨some (⟨some d, m⟩ :: cs)⟩ :: rest)
          = _process_streaming_response rest) := by
  have hx : _extract_content ⟨some (⟨some d, m⟩ :: cs)⟩ = v := by
    show (match d.content with
      | some v0 => v0
      | none => messageContent ⟨some d, m⟩) = v
    rw [hd]
  refine ⟨hx, ?_⟩
  intro hv rest
  unfold _process_streaming_response
  have hc : collectChunks (⟨some (⟨some d, m⟩ :: cs)⟩ :: rest)
      = collectChunks rest := by
    rcases hv with hv | hv
    · simp only [collectChunks, hx, hv]
    · simp [collectChunks, hx, hv]
  rw [hc]

/-- C10 witness: a concrete chunk whose delta content is `None` while a
message with non-empty content is also present contributes nothing. -/
theorem deltaContentShadowsMessage_witness :
    _extract_content ⟨some (⟨some ⟨some none⟩,
        some ⟨some (some "MSG")⟩⟩ :: [])⟩ = none
    ∧ ((none = (none : Option String) ∨ none = some "") →
        ∀ rest : List ResponseObj,
        _process_streaming_response (⟨some (⟨some ⟨some none⟩,
          some ⟨some (some "MSG")⟩⟩ :: [])⟩ :: rest)
          = _process_streaming_response rest) :=
  deltaContentShadowsMessage ⟨some none⟩ none rfl
    (some ⟨some (some "MSG")⟩) []

/-- C5 counterexample: with a subtask id containing a double quote
(`a"b`), the run still returns the lead worker's report, but the
coordinator prompt does not contain that id literally — `json.dumps`
rewrites it to `a\"b` — refuting the claim's containment conjunct. -/
theorem coordinatorPromptEscapesQuotedId :
    (run_deep_research ⟨some "hf-token", some "fc-key"⟩
        (fun _ => "PLAN P")
        (fun _ => [⟨"a\x22b", "T1", "D1"⟩, ⟨"c2", "T2", "D2"⟩])
        (fun _ _ => "REPORT R") "QUERY Q").map
        (fun r => (r.finalReport, strContains r.prompt "a\x22b"))
      = .ok ("REPORT R", false) := by
  set_option maxRecDepth 20000 in decide

/-- C5 (amended): with both credentials present, the stubbed run
returns exactly the lead worker's report, and the prompt passed to the
lead worker contains the literal query and literal plan always, and the
ids and titles of both subtasks whenever those strings contain no
characters that JSON string escaping rewrites (double quote, backslash,
control characters). -/
theorem coordinatorRunContainments (hf fc query plan report : String)
    (hhf : hf ≠ "") (hfc : fc ≠ "") (s1 s2 : Subtask) :
    ∃ r, run_deep_research ⟨some hf, some fc⟩ (fun _ => plan)
        (fun _ => [s1, s2]) (fun _ _ => report) query = .ok r
      ∧ r.finalReport = report
      ∧ strContains r.prompt query = true
      ∧ strContains r.prompt plan = true
      ∧ (jsonPlain s1.id = true → strContains r.prompt s1.id = true)
      ∧ (jsonPlain s1.title = true → strContains r.prompt s1.title = true)
      ∧ (jsonPlain s2.id = true → strContains r.prompt s2.id = true)
      ∧ (jsonPlain s2.title = true → strContains r.prompt s2.title = true) := by
  have h1 : _get_hf_token ⟨some hf, some fc⟩ = .ok hf := by
    show (if hf = "" then Except.error
        (PyErr.keyError "HF_TOKEN environment variable is not set")
      else Except.ok hf) = Except.ok hf
    rw [if_neg hhf]
  have h2 : _get_mcp_url ⟨some hf, some fc⟩
      = .ok ("https://mcp.firecrawl.dev/" ++ fc ++ "/v2/mcp") := by
    show (if fc = "" then Except.error
        (PyErr.keyError "FIRECRAWL_API_KEY environment variable is not set")
      else Except.ok ("https://mcp.firecrawl.dev/" ++ fc ++ "/v2/mcp"))
      = Except.ok ("https://mcp.firecrawl.dev/" ++ fc ++ "/v2/mcp")
    rw [if_neg hfc]
  have hrun : run_deep_research ⟨some hf, some fc⟩ (fun _ => plan)
      (fun _ => [s1, s2]) (fun _ _ => report) query
      = .ok ⟨⟨[subagentToolSpec], _create_model COORDINATOR_MODEL_ID hf, false,
          "coordinator_agent"⟩,
        coordinatorPrompt query plan (subtasksJson [s1, s2]), report⟩ := by
    unfold run_deep_research
    rw [h1, h2]
  refine ⟨_, hrun, rfl, ?_, ?_, ?_, ?_, ?_, ?_⟩
  · exact coordinatorPrompt_contains_query _ _ _
  · exact coordinatorPrompt_contains_plan _ _ _
  · intro h
    exact coordinatorPrompt_contains_sj _ _ _ _
      (subtasksJson_pair_contains s1 s2 _ (Or.inl (dumpSubtask_contains_id s1 h)))
  · intro h
    exact coordinatorPrompt_contains_sj _ _ _ _
      (subtasksJson_pair_contains s1 s2 _ (Or.inl (dumpSubtask_contains_title s1 h)))
  · intro h
    exact coordinatorPrompt_contains_sj _ _ _ _
      (subtasksJson_pair_contains s1 s2 _ (Or.inr (dumpSubtask_contains_id s2 h)))
  · intro h
    exact coordinatorPrompt_contains_sj _ _ _ _
      (subtasksJson_pair_contains s1 s2 _ (Or.inr (dumpSubtask_contains_title s2 h)))

/-- C5 witness: the amended coordination property at concrete stubs. -/
theorem coordinatorRunContainments_witness :
    ∃ r, run_deep_research ⟨some "hf-token", some "fc-key"⟩
        (fun _ => "PLAN P")
        (fun _ => [⟨"history", "Historical Background", "D1"⟩,
          ⟨"current", "Current State", "D2"⟩])
        (fun _ _ => "REPORT R") "QUERY Q" = .ok r
      ∧ r.finalReport = "REPORT R"
      ∧ strContains r.prompt "QUERY Q" = true
      ∧ strContains r.prompt "PLAN P" = true
      ∧ (jsonPlain "history" = true → strContains r.prompt "history" = true)
      ∧ (jsonPlain "Historical Background" = true →
          strContains r.prompt "Historical Background" = true)
      ∧ (jsonPlain "current" = true → strContains r.prompt "current" = true)
      ∧ (jsonPlain "Current State" = true →
          strContains r.prompt "Current State" = true) :=
  coordinatorRunContainments "hf-token" "fc-key" "QUERY Q" "PLAN P" "REPORT R"
    (by decide) (by decide) ⟨"history", "Historical Background", "D1"⟩
    ⟨"current", "Current State", "D2"⟩

/-- C8: with both credentials present, the lead worker is constructed
with exactly one tool, the `initialize_subagent` callable, whose
declared call signature is exactly the three subtask fields. -/
theorem leadWorkerSingleTool (hf fc : String) (hhf : hf ≠ "") (hfc : fc ≠ "")
    (planOf : String → String) (splitOf : String → List Subtask)
    (agentRun : AgentSpec → String → String) (query : String) :
    ∃ r, run_deep_research ⟨some hf, some fc⟩ planOf splitOf agentRun query = .ok r
      ∧ r.leadAgent.tools = [subagentToolSpec]
      ∧ r.leadAgent.tools.length = 1
      ∧ subagentToolSpec.params
        = ["subtask_id", "subtask_title", "subtask_description"] := by
  have h1 : _get_hf_token ⟨some hf, some fc⟩ = .ok hf := by
    show (if hf = "" then Except.error
        (PyErr.keyError "HF_TOKEN environment variable is not set")
      else Except.ok hf) = Except.ok hf
    rw [if_neg hhf]
  have h2 : _get_mcp_url ⟨some hf, some fc⟩
      = .ok ("https://mcp.firecrawl.dev/" ++ fc ++ "/v2/mcp") := by
    show (if fc = "" then Except.error
        (PyErr.keyError "FIRECRAWL_API_KEY environment variable is not set")
      else Except.ok ("https://mcp.firecrawl.dev/" ++ fc ++ "/v2/mcp"))
      = Except.ok ("https://mcp.firecrawl.dev/" ++ fc ++ "/v2/mcp")
    rw [if_neg hfc]
  unfold run_deep_research
  rw [h1, h2]
  exact ⟨_, rfl, rfl, rfl, rfl⟩

/-- C8 witness: the single-tool property at concrete stubs. -/
theorem leadWorkerSingleTool_witness :
    ∃ r, run_deep_research ⟨some "hf-token", some "fc-key"⟩
        (fun _ => "PLAN P") (fun _ => []) (fun _ _ => "REPORT R") "QUERY Q"
        = .ok r
      ∧ r.leadAgent.tools = [subagentToolSpec]
      ∧ r.leadAgent.tools.length = 1
      ∧ subagentToolSpec.params
        = ["subtask_id", "subtask_title", "subtask_description"] :=
  leadWorkerSingleTool "hf-token" "fc-key" (by decide) (by decide)
    (fun _ => "PLAN P") (fun _ => []) (fun _ _ => "REPORT R") "QUERY Q"
